import Mathlib

/-!
Shallow embedding of the tmoelbot storage layer (src/database.py) and the
join-verification membership check (src/utils.py), together with proofs of
the specification claims about them.

Modelling conventions:
* Tables with a UNIQUE natural key are finite maps from that key to an
  optional row (users keyed by id, channels keyed by username, orders keyed
  by id, codes keyed by the code string, channel_leavers and code_usage
  keyed by their unique pairs).  The user_channel_subscriptions table is
  kept as a list because the code takes a COUNT(*) over it.
* SQL UPDATE ... WHERE key = k is an Option.map at key k (a missing row is
  left missing, matching the zero-rowcount behaviour).
* CURRENT_TIMESTAMP is an explicit parameter of the operations that store
  timestamps.
* Row fields never touched by the modelled operations are omitted.
* Integer columns are Lean Int; SQLite INTEGER has no overflow behaviour
  relevant to these claims.
-/

/-- Normalisation applied by database.py to every channel username:
`username.replace('@', '')`, i.e. dropping every at-sign character. -/
def normUser (u : String) : String := ⟨u.data.filter (fun ch => ch != '@')⟩

/-- A row of the users table (the columns the modelled operations touch). -/
structure UserRow where
  points : Int
  channels_joined : Int
  deriving DecidableEq, Repr

/-- A row of the channels table, keyed externally by username. -/
structure ChannelRow where
  type : String
  target : Int
  gained : Int
  initial_count : Int
  current_count : Int
  active : Bool
  order_id : Option Nat
  deriving DecidableEq, Repr

/-- A row of the orders table, keyed externally by id. -/
structure OrderRow where
  user_id : Nat
  channel_username : String
  members_count : Int
  points_cost : Int
  status : String
  completed_at : Option Nat
  deriving DecidableEq, Repr

/-- A row of the codes table, keyed externally by the code string
(`code TEXT UNIQUE`), so the code string stands in for `code_id`. -/
structure CodeRow where
  points : Int
  usage_limit : Int
  used_count : Int
  active : Bool
  deriving DecidableEq, Repr

/-- A row of the channel_leavers table, keyed externally by its
UNIQUE (user_id, channel_username) pair. -/
structure LeaverRow where
  previously_subscribed : Bool
  penalty_applied : Bool
  deriving DecidableEq, Repr

/-- The mutable database state of src/database.py. -/
structure Database where
  users : Nat → Option UserRow
  channels : String → Option ChannelRow
  orders : Nat → Option OrderRow
  next_order_id : Nat
  user_channel_subscriptions : List (Nat × String)
  channel_leavers : Nat → String → Option LeaverRow
  codes : String → Option CodeRow
  code_usage : Nat → String → Bool

/-- Semantics of `UPDATE users SET ... WHERE id = user_id` : apply `f` to the row when
it exists, leave the table unchanged otherwise. -/
def Database.updateUser (s : Database) (user_id : Nat) (f : UserRow → UserRow) :
    Database :=
  { s with users := fun i => if i = user_id then (s.users i).map f else s.users i }

/-- Write (or delete, via `none`) the channels row at username `n`. -/
def Database.setChannel (s : Database) (n : String) (row : Option ChannelRow) :
    Database :=
  { s with channels := fun c => if c = n then row else s.channels c }

/-- Semantics of `UPDATE orders SET ... WHERE id = oid` : apply `f` to the row when it
exists, leave the table unchanged otherwise. -/
def Database.updateOrder (s : Database) (oid : Nat) (f : OrderRow → OrderRow) :
    Database :=
  { s with orders := fun i => if i = oid then (s.orders i).map f else s.orders i }

/-- Write (or delete, via `none`) the channel_leavers row for a pair. -/
def Database.setLeaver (s : Database) (user_id : Nat) (n : String)
    (row : Option LeaverRow) : Database :=
  { s with channel_leavers := fun uid c =>
      if uid = user_id ∧ c = n then row else s.channel_leavers uid c }

/-- Write the codes row at code string `cd`. -/
def Database.setCode (s : Database) (cd : String) (row : Option CodeRow) :
    Database :=
  { s with codes := fun c => if c = cd then row else s.codes c }

/-- Insert a code_usage row for (user, code). -/
def Database.insertUsage (s : Database) (user_id : Nat) (cd : String) :
    Database :=
  { s with code_usage := fun uid c =>
      if uid = user_id ∧ c = cd then true else s.code_usage uid c }

/-- Model of `Database.remove_channel_leaver` (database.py): deletes the
channel_leavers row for the pair, after normalising the username. -/
def Database.remove_channel_leaver (s : Database) (user_id : Nat)
    (channel_username : String) : Database :=
  s.setLeaver user_id (normUser channel_username) none

/-- Model of `Database.user_joined_channel` (database.py): INSERT OR IGNORE the
subscription; on a fresh insert award the points, bump channels_joined and
clear any channel_leavers fact; otherwise leave everything unchanged and
report false. -/
def Database.user_joined_channel (s : Database) (user_id : Nat)
    (channel_username : String) (points : Int) : Database × Bool :=
  let n := normUser channel_username
  if (user_id, n) ∈ s.user_channel_subscriptions then
    (s, false)
  else
    let s1 := { s with
      user_channel_subscriptions := (user_id, n) :: s.user_channel_subscriptions }
    let s2 := s1.updateUser user_id (fun u =>
      { u with points := u.points + points,
               channels_joined := u.channels_joined + 1 })
    (s2.remove_channel_leaver user_id channel_username, true)

/-- Model of `Database.penalize_channel_leaver` (database.py): delete the
subscription row; when one was deleted, debit the penalty (when positive)
and decrement channels_joined, then INSERT OR REPLACE the channel_leavers
fact recording whether the penalty was applied. -/
def Database.penalize_channel_leaver (s : Database) (user_id : Nat)
    (channel_username : String) (penalty_points : Int) : Database :=
  let n := normUser channel_username
  let was_subscribed := (user_id, n) ∈ s.user_channel_subscriptions
  let s1 :=
    { s with user_channel_subscriptions :=
        s.user_channel_subscriptions.filter (fun p => !(p.1 = user_id ∧ p.2 = n)) }
  if was_subscribed then
    let s2 :=
      if penalty_points > 0 then
        s1.updateUser user_id (fun u =>
          { u with points := u.points - penalty_points,
                   channels_joined := u.channels_joined - 1 })
      else
        s1.updateUser user_id (fun u =>
          { u with channels_joined := u.channels_joined - 1 })
    s2.setLeaver user_id n
      (some ⟨decide was_subscribed, decide (penalty_points > 0)⟩)
  else
    s1

/-- Model of `Database.add_channel` (database.py): when the (normalised) username is
already present, purge all subscriptions for it and reactivate the row with
the new type, target and order_id, resetting gained and current_count to
zero; otherwise insert a fresh row (the SQL INSERT hard-codes
initial_count, current_count and gained to 0 and active to 1). -/
def Database.add_channel (s : Database) (username : String)
    (channel_type : String) (target : Int) (order_id : Option Nat) :
    Database × Bool :=
  let n := normUser username
  match s.channels n with
  | some ch =>
      let s1 :=
        { s with user_channel_subscriptions :=
            s.user_channel_subscriptions.filter (fun p => !(p.2 = n)) }
      let row : ChannelRow :=
        { ch with active := true, type := channel_type, target := target,
                  gained := 0, current_count := 0, order_id := order_id }
      (s1.setChannel n (some row), true)
  | none =>
      let row : ChannelRow :=
        { type := channel_type, target := target, gained := 0,
          initial_count := 0, current_count := 0, active := true,
          order_id := order_id }
      (s.setChannel n (some row), true)

/-- The hard-coded fallback owner id in `update_channel_members`
("Default admin as owner"). -/
def defaultAdminOwnerId : Nat := 8117492678

/-- The COUNT(*) of `update_channel_members`: subscriptions to the channel
whose user exists in the users table (INNER JOIN users) and is not the
excluded owner. -/
def Database.gainedCount (s : Database) (n : String) (owner : Nat) : Nat :=
  (s.user_channel_subscriptions.filter
    (fun p => p.2 = n ∧ p.1 ≠ owner ∧ (s.users p.1).isSome : _ → Bool)).length

/-- The excluded-party computation of `update_channel_members`: the backing
order's owner when the channel references an order that exists, and the
hard-coded default admin id otherwise. -/
def Database.orderOwnerId (s : Database) (ch : ChannelRow) : Nat :=
  match ch.order_id with
  | none => defaultAdminOwnerId
  | some oid =>
      match s.orders oid with
      | some o => o.user_id
      | none => defaultAdminOwnerId

/-- Model of `Database.update_channel_members` (database.py): on an active channel,
recompute gained (excluding the order owner, or the default admin when no
order/owner is found), write gained and current_count back, and when the
target is reached deactivate the channel and mark the backing order
completed, returning the owner id for notification. -/
def Database.update_channel_members (s : Database) (username : String)
    (now : Nat) : Database × (Bool × Option Nat) :=
  let n := normUser username
  match s.channels n with
  | none => (s, (false, none))
  | some ch =>
    if ch.active then
      let order_owner_id : Nat := s.orderOwnerId ch
      let gained_members := s.gainedCount n order_owner_id
      let row1 : ChannelRow :=
        { ch with gained := (gained_members : Int),
                  current_count := (gained_members : Int) }
      let s1 := s.setChannel n (some row1)
      if (gained_members : Int) ≥ ch.target then
        let s2 := s1.setChannel n (some { row1 with active := false })
        let owner_ret : Option Nat :=
          match ch.order_id with
          | none => none
          | some oid => (s.orders oid).map (fun o => o.user_id)
        let s3 :=
          match ch.order_id with
          | none => s2
          | some oid =>
              s2.updateOrder oid (fun o =>
                { o with status := "completed", completed_at := some now })
        (s3, (true, owner_ret))
      else
        (s1, (false, none))
    else
      (s, (false, none))

/-- Model of `Database.create_order` (database.py): debit the cost from the user,
insert the order row, then create/reset the backing channel as a normal
channel targeting the purchased member count, referencing the new order. -/
def Database.create_order (s : Database) (user_id : Nat)
    (channel_username : String) (members_count : Int) (points_cost : Int) :
    Nat × Database :=
  let s1 := s.updateUser user_id (fun u =>
    { u with points := u.points - points_cost })
  let order_id := s1.next_order_id
  let row : OrderRow :=
    { user_id := user_id, channel_username := normUser channel_username,
      members_count := members_count, points_cost := points_cost,
      status := "active", completed_at := none }
  let s2 :=
    { s1 with
      orders := fun i => if i = order_id then some row else s1.orders i,
      next_order_id := s1.next_order_id + 1 }
  let s3 := (s2.add_channel channel_username "normal" members_count
    (some order_id)).1
  (order_id, s3)

/-- Model of `Database.redeem_code` (database.py): `none` for an invalid, inactive or
exhausted code, `some (-1)` when this user already used the code, otherwise
record the usage, bump used_count, credit the points and return them. -/
def Database.redeem_code (s : Database) (user_id : Nat) (code : String) :
    Option Int × Database :=
  match s.codes code with
  | none => (none, s)
  | some c =>
    if !c.active then (none, s)
    else if c.used_count ≥ c.usage_limit then (none, s)
    else if s.code_usage user_id code then (some (-1), s)
    else
      let s1 := s.insertUsage user_id code
      let s2 := s1.setCode code (some { c with used_count := c.used_count + 1 })
      let s3 := s2.updateUser user_id (fun u =>
        { u with points := u.points + c.points })
      (some c.points, s3)

/-- The fields of a platform user record inspected by
`check_user_membership` (utils.py). -/
structure TgUser where
  id : Nat
  is_bot : Bool
  username : Option String
  first_name : Option String
  deriving DecidableEq, Repr

/-- The chat-member statuses accepted by `check_user_membership`. -/
def memberStatuses : List String := ["member", "administrator", "creator"]

/-- The suspicion heuristics of `check_user_membership` (utils.py):
short handle, numeric-only handle, or missing/short first name set the
`is_suspicious` flag (a missing handle and a high account id only append
warnings without setting the flag). -/
def isSuspicious (user : TgUser) : Bool :=
  (match user.username with
   | some un => decide (un.length < 5) || (!un.isEmpty && un.all Char.isDigit)
   | none => false)
  ||
  (match user.first_name with
   | none => true
   | some fn => decide (fn.trim.length < 2))

/-- Model of `check_user_membership` (utils.py), on a successfully fetched member
record: reject non-member statuses, reject bot accounts, and otherwise
report success — the suspicion heuristics are computed for logging only and
never influence the result. -/
def check_user_membership (status : String) (user : TgUser) : Bool :=
  if !(memberStatuses.contains status) then false
  else if user.is_bot then false
  else true

/-! ### Helper lemmas about the embedding -/

theorem filter_pair_not_mem {l : List (Nat × String)} {uid : Nat} {n : String}
    (h : (uid, n) ∉ l) :
    l.filter (fun p => !(p.1 = uid ∧ p.2 = n)) = l := by
  apply List.filter_eq_self.mpr
  intro a ha
  simp only [Bool.not_eq_true', decide_eq_false_iff_not]
  intro hc
  apply h
  have heq : a = (uid, n) := Prod.ext hc.1 hc.2
  rwa [heq] at ha

/-! ### Concrete states used by the witnesses -/

/-- The database with all tables empty. -/
def emptyDB : Database :=
  { users := fun _ => none
    channels := fun _ => none
    orders := fun _ => none
    next_order_id := 1
    user_channel_subscriptions := []
    channel_leavers := fun _ _ => none
    codes := fun _ => none
    code_usage := fun _ _ => false }

/-- Witness state for the recordJoin claim: users 1 and 2, user 2 already
subscribed to "promo", user 1 recorded as a leaver of "promo". -/
def wJoinDB : Database :=
  { emptyDB with
    users := fun i =>
      if i = 1 then some ⟨10, 0⟩ else if i = 2 then some ⟨2, 1⟩ else none
    user_channel_subscriptions := [(2, "promo")]
    channel_leavers := fun uid c =>
      if uid = 1 ∧ c = "promo" then some ⟨true, true⟩ else none }

/-! ### The claims -/

/-- C1: `user_joined_channel` returns false and leaves the state unchanged
when the subscription pair already exists; on a fresh pair it inserts
exactly one subscription row, credits exactly the given points, increments
channels_joined by one, and deletes any channel_leavers fact for the
pair. -/
theorem user_joined_channel_spec (s : Database) (user_id : Nat)
    (channel_username : String) (points : Int) (u : UserRow)
    (hu : s.users user_id = some u) :
    ((user_id, normUser channel_username) ∈ s.user_channel_subscriptions →
        s.user_joined_channel user_id channel_username points = (s, false))
    ∧
    ((user_id, normUser channel_username) ∉ s.user_channel_subscriptions →
        (s.user_joined_channel user_id channel_username points).2 = true ∧
        (s.user_joined_channel user_id channel_username points).1.user_channel_subscriptions
          = (user_id, normUser channel_username) :: s.user_channel_subscriptions ∧
        (s.user_joined_channel user_id channel_username points).1.users user_id
          = some ⟨u.points + points, u.channels_joined + 1⟩ ∧
        (s.user_joined_channel user_id channel_username points).1.channel_leavers
          user_id (normUser channel_username) = none) := by
  constructor
  · intro h
    simp [Database.user_joined_channel, h]
  · intro h
    simp [Database.user_joined_channel, h, Database.updateUser,
      Database.remove_channel_leaver, Database.setLeaver, hu]

/-- Witness for C1 : at the concrete state `wJoinDB`, user 1 freshly joins
"promo" (earning 3 points and erasing the leaver fact) while user 2's
re-join is a no-op. -/
theorem user_joined_channel_spec_witness :
    (wJoinDB.users 1 = some ⟨10, 0⟩) ∧
    (((1, normUser "promo") ∈ wJoinDB.user_channel_subscriptions →
        wJoinDB.user_joined_channel 1 "promo" 3 = (wJoinDB, false))
     ∧
     ((1, normUser "promo") ∉ wJoinDB.user_channel_subscriptions →
        (wJoinDB.user_joined_channel 1 "promo" 3).2 = true ∧
        (wJoinDB.user_joined_channel 1 "promo" 3).1.user_channel_subscriptions
          = (1, normUser "promo") :: wJoinDB.user_channel_subscriptions ∧
        (wJoinDB.user_joined_channel 1 "promo" 3).1.users 1
          = some ⟨10 + 3, 0 + 1⟩ ∧
        (wJoinDB.user_joined_channel 1 "promo" 3).1.channel_leavers
          1 (normUser "promo") = none)) :=
  ⟨by decide, user_joined_channel_spec wJoinDB 1 "promo" 3 ⟨10, 0⟩ (by decide)⟩

/-- C10: when no subscription row exists for the pair,
`penalize_channel_leaver` is a complete no-op: the whole database state,
in particular the user's balance, channels_joined counter and the
channel_leavers table, is unchanged. -/
theorem penalize_channel_leaver_noop (s : Database) (user_id : Nat)
    (channel_username : String) (penalty_points : Int)
    (h : (user_id, normUser channel_username) ∉ s.user_channel_subscriptions) :
    s.penalize_channel_leaver user_id channel_username penalty_points = s := by
  simp only [Database.penalize_channel_leaver, if_neg h]
  rw [filter_pair_not_mem h]

/-- Witness for C10 : user 1 never subscribed to "promo" in `wJoinDB`, so
penalising them with 5 points changes nothing. -/
theorem penalize_channel_leaver_noop_witness :
    ((1, normUser "promo") ∉ wJoinDB.user_channel_subscriptions) ∧
    wJoinDB.penalize_channel_leaver 1 "promo" 5 = wJoinDB :=
  ⟨by decide, penalize_channel_leaver_noop wJoinDB 1 "promo" 5 (by decide)⟩

/-- C5: `penalize_channel_leaver` on an existing subscription deletes it;
with a positive penalty it debits exactly the penalty (no floor), drops
channels_joined by one and records a penalised leaver fact; with penalty 0
it leaves the balance alone, drops channels_joined by one and records an
unpenalised leaver fact. -/
theorem penalize_channel_leaver_spec (s : Database) (user_id : Nat)
    (channel_username : String) (penalty_points : Int) (u : UserRow)
    (hu : s.users user_id = some u)
    (hsub : (user_id, normUser channel_username) ∈ s.user_channel_subscriptions) :
    (s.penalize_channel_leaver user_id channel_username penalty_points).user_channel_subscriptions
      = s.user_channel_subscriptions.filter
          (fun p => !(p.1 = user_id ∧ p.2 = normUser channel_username)) ∧
    (penalty_points > 0 →
      (s.penalize_channel_leaver user_id channel_username penalty_points).users user_id
        = some ⟨u.points - penalty_points, u.channels_joined - 1⟩ ∧
      (s.penalize_channel_leaver user_id channel_username penalty_points).channel_leavers
        user_id (normUser channel_username) = some ⟨true, true⟩) ∧
    (penalty_points = 0 →
      (s.penalize_channel_leaver user_id channel_username penalty_points).users user_id
        = some ⟨u.points, u.channels_joined - 1⟩ ∧
      (s.penalize_channel_leaver user_id channel_username penalty_points).channel_leavers
        user_id (normUser channel_username) = some ⟨true, false⟩) := by
  refine ⟨?_, ?_, ?_⟩
  · simp [Database.penalize_channel_leaver, hsub, Database.setLeaver,
      Database.updateUser]
    split <;> simp [Database.updateUser, Database.setLeaver]
  · intro hp
    constructor
    · simp [Database.penalize_channel_leaver, hsub, hp, Database.setLeaver,
        Database.updateUser, hu]
    · simp [Database.penalize_channel_leaver, hsub, hp, Database.setLeaver,
        Database.updateUser, hsub]
  · intro hp
    constructor
    · simp [Database.penalize_channel_leaver, hsub, hp, Database.setLeaver,
        Database.updateUser, hu]
    · simp [Database.penalize_channel_leaver, hsub, hp, Database.setLeaver,
        Database.updateUser, hsub]

/-- Witness for C5 : in `wJoinDB`, user 2 (2 points, 1 channel joined) is
subscribed to "promo"; a penalty of 5 leaves them at -3 points, and a
penalty of 0 leaves them at 2 points; both record the leaver fact. -/
theorem penalize_channel_leaver_spec_witness :
    (wJoinDB.users 2 = some ⟨2, 1⟩) ∧
    ((2, normUser "promo") ∈ wJoinDB.user_channel_subscriptions) ∧
    ((wJoinDB.penalize_channel_leaver 2 "promo" 5).user_channel_subscriptions
      = wJoinDB.user_channel_subscriptions.filter
          (fun p => !(p.1 = 2 ∧ p.2 = normUser "promo")) ∧
     ((5 : Int) > 0 →
       (wJoinDB.penalize_channel_leaver 2 "promo" 5).users 2
         = some ⟨2 - 5, 1 - 1⟩ ∧
       (wJoinDB.penalize_channel_leaver 2 "promo" 5).channel_leavers
         2 (normUser "promo") = some ⟨true, true⟩) ∧
     ((5 : Int) = 0 →
       (wJoinDB.penalize_channel_leaver 2 "promo" 5).users 2
         = some ⟨2, 1 - 1⟩ ∧
       (wJoinDB.penalize_channel_leaver 2 "promo" 5).channel_leavers
         2 (normUser "promo") = some ⟨true, false⟩)) :=
  ⟨by decide, by decide,
    penalize_channel_leaver_spec wJoinDB 2 "promo" 5 ⟨2, 1⟩ (by decide) (by decide)⟩

/-! ### Frame lemmas for add_channel -/

theorem add_channel_users (s : Database) (username channel_type : String)
    (target : Int) (order_id : Option Nat) :
    (s.add_channel username channel_type target order_id).1.users = s.users := by
  rcases h : s.channels (normUser username) with _ | ch <;>
    simp [Database.add_channel, h, Database.setChannel]

theorem add_channel_orders (s : Database) (username channel_type : String)
    (target : Int) (order_id : Option Nat) :
    (s.add_channel username channel_type target order_id).1.orders = s.orders := by
  rcases h : s.channels (normUser username) with _ | ch <;>
    simp [Database.add_channel, h, Database.setChannel]

theorem add_channel_channels_self (s : Database) (username channel_type : String)
    (target : Int) (order_id : Option Nat) :
    ∃ ch', (s.add_channel username channel_type target order_id).1.channels
        (normUser username) = some ch' ∧
      ch'.active = true ∧ ch'.type = channel_type ∧ ch'.target = target ∧
      ch'.order_id = order_id ∧ ch'.gained = 0 := by
  rcases h : s.channels (normUser username) with _ | ch <;>
    simp [Database.add_channel, h, Database.setChannel]

/-- Witness state for the reset-on-readd claim: channel "x" is active with
target 100 and ten subscriptions; a subscription to another channel is also
present. -/
def wResetDB : Database :=
  { emptyDB with
    channels := fun c =>
      if c = "x" then some ⟨"normal", 100, 10, 0, 10, true, some 4⟩ else none
    user_channel_subscriptions :=
      [(11, "x"), (12, "x"), (13, "x"), (14, "x"), (15, "x"),
       (16, "x"), (17, "x"), (18, "x"), (19, "x"), (20, "x"), (21, "other")] }

/-- C6: re-adding an existing channel reactivates it with the newly
supplied kind, target and order reference, resets gained (and
current_count) to 0, and deletes every subscription row for the channel. -/
theorem add_channel_reset (s : Database) (username channel_type : String)
    (target : Int) (order_id : Option Nat) (ch : ChannelRow)
    (hch : s.channels (normUser username) = some ch) :
    (s.add_channel username channel_type target order_id).2 = true ∧
    (s.add_channel username channel_type target order_id).1.channels (normUser username)
      = some { ch with active := true, type := channel_type, target := target,
                       gained := 0, current_count := 0, order_id := order_id } ∧
    (s.add_channel username channel_type target order_id).1.user_channel_subscriptions
      = s.user_channel_subscriptions.filter (fun p => !(p.2 = normUser username)) ∧
    (∀ q ∈ (s.add_channel username channel_type target order_id).1.user_channel_subscriptions,
        q.2 ≠ normUser username) := by
  refine ⟨?_, ?_, ?_, ?_⟩
  · simp [Database.add_channel, hch]
  · simp [Database.add_channel, hch, Database.setChannel]
  · simp [Database.add_channel, hch, Database.setChannel]
  · intro q hq
    simp only [Database.add_channel, hch, Database.setChannel] at hq
    have := List.of_mem_filter hq
    simpa using this

/-- Witness for C6 : re-adding "x" (active, 10 subscriptions) with target
50 leaves it active with the new target, gained 0 and no subscriptions. -/
theorem add_channel_reset_witness :
    (wResetDB.channels (normUser "x")
      = some ⟨"normal", 100, 10, 0, 10, true, some 4⟩) ∧
    ((wResetDB.add_channel "x" "normal" 50 none).2 = true ∧
     (wResetDB.add_channel "x" "normal" 50 none).1.channels (normUser "x")
       = some { (⟨"normal", 100, 10, 0, 10, true, some 4⟩ : ChannelRow) with
                  active := true, type := "normal", target := 50,
                  gained := 0, current_count := 0, order_id := none } ∧
     (wResetDB.add_channel "x" "normal" 50 none).1.user_channel_subscriptions
       = wResetDB.user_channel_subscriptions.filter
           (fun p => !(p.2 = normUser "x")) ∧
     (∀ q ∈ (wResetDB.add_channel "x" "normal" 50 none).1.user_channel_subscriptions,
         q.2 ≠ normUser "x")) :=
  ⟨by decide,
    add_channel_reset wResetDB "x" "normal" 50 none
      ⟨"normal", 100, 10, 0, 10, true, some 4⟩ (by decide)⟩

/-- Witness state for the placeOrder claim: one user with 200 points, order
counter at 5, no channel yet for "mychan". -/
def wOrderDB : Database :=
  { emptyDB with
    users := fun i => if i = 9 then some ⟨200, 3⟩ else none
    next_order_id := 5 }

/-- C7: `create_order` debits exactly the cost from the purchasing user,
creates exactly one order row (at the fresh id, all other order rows
untouched) and creates/resets the backing channel as kind "normal" with the
purchased member count as target and the new order as its reference; all of
these effects occur together in the one operation. -/
theorem create_order_spec (s : Database) (user_id : Nat)
    (channel_username : String) (members_count points_cost : Int) (u : UserRow)
    (hu : s.users user_id = some u) :
    (s.create_order user_id channel_username members_count points_cost).1
      = s.next_order_id ∧
    (s.create_order user_id channel_username members_count points_cost).2.users user_id
      = some ⟨u.points - points_cost, u.channels_joined⟩ ∧
    (s.create_order user_id channel_username members_count points_cost).2.orders
        s.next_order_id
      = some ⟨user_id, normUser channel_username, members_count, points_cost,
              "active", none⟩ ∧
    (∀ j, j ≠ s.next_order_id →
      (s.create_order user_id channel_username members_count points_cost).2.orders j
        = s.orders j) ∧
    (∃ ch', (s.create_order user_id channel_username members_count points_cost).2.channels
          (normUser channel_username) = some ch' ∧
        ch'.active = true ∧ ch'.type = "normal" ∧ ch'.target = members_count ∧
        ch'.order_id = some s.next_order_id ∧ ch'.gained = 0) := by
  refine ⟨rfl, ?_, ?_, ?_, ?_⟩
  · rw [Database.create_order]
    rw [add_channel_users]
    simp [Database.updateUser, hu]
  · rw [Database.create_order]
    rw [add_channel_orders]
    simp [Database.updateUser]
  · intro j hj
    rw [Database.create_order]
    rw [add_channel_orders]
    simp [Database.updateUser, hj]
  · rw [Database.create_order]
    exact add_channel_channels_self _ _ _ _ _

/-- Witness for C7 : user 9 (200 points) orders 25 members for "mychan" at
a cost of 50 points; order id 5 is created, the balance drops to 150, and
the backing channel appears as normal/target 25/order 5. -/
theorem create_order_spec_witness :
    (wOrderDB.users 9 = some ⟨200, 3⟩) ∧
    ((wOrderDB.create_order 9 "mychan" 25 50).1 = wOrderDB.next_order_id ∧
     (wOrderDB.create_order 9 "mychan" 25 50).2.users 9
       = some ⟨200 - 50, 3⟩ ∧
     (wOrderDB.create_order 9 "mychan" 25 50).2.orders wOrderDB.next_order_id
       = some ⟨9, normUser "mychan", 25, 50, "active", none⟩ ∧
     (∀ j, j ≠ wOrderDB.next_order_id →
       (wOrderDB.create_order 9 "mychan" 25 50).2.orders j = wOrderDB.orders j) ∧
     (∃ ch', (wOrderDB.create_order 9 "mychan" 25 50).2.channels (normUser "mychan")
           = some ch' ∧
         ch'.active = true ∧ ch'.type = "normal" ∧ ch'.target = 25 ∧
         ch'.order_id = some wOrderDB.next_order_id ∧ ch'.gained = 0)) :=
  ⟨by decide, create_order_spec wOrderDB 9 "mychan" 25 50 ⟨200, 3⟩ (by decide)⟩

/-! ### Lemmas about update_channel_members -/

theorem gainedCount_eq_of_users_present (s : Database) (n : String) (owner : Nat)
    (husers : ∀ p ∈ s.user_channel_subscriptions, p.2 = n →
        (s.users p.1).isSome = true) :
    s.gainedCount n owner
      = (s.user_channel_subscriptions.filter
          (fun p => p.2 = n ∧ p.1 ≠ owner)).length := by
  unfold Database.gainedCount
  congr 1
  apply List.filter_congr
  intro p hp
  by_cases h2 : p.2 = n
  · simp [h2, husers p hp h2]
  · simp [h2]

theorem update_channel_members_writes_gained (s : Database) (username : String)
    (now : Nat) (ch : ChannelRow)
    (hch : s.channels (normUser username) = some ch) (hact : ch.active = true) :
    ∃ ch', (s.update_channel_members username now).1.channels (normUser username)
        = some ch' ∧
      ch'.gained = (s.gainedCount (normUser username) (s.orderOwnerId ch) : Int) ∧
      ch'.current_count = ch'.gained := by
  simp only [Database.update_channel_members, hch, hact, if_true]
  split
  · rcases hoid : ch.order_id with _ | oid
    · simp [hoid, Database.setChannel]
    · simp [hoid, Database.updateOrder, Database.setChannel]
  · simp [Database.setChannel]

/-- Witness state for the self-exclusion claim: order 4 (owner 30) backs
channel "promo" with target 5; five non-owner users and the owner are all
subscribed and present in the users table. -/
def wExclDB : Database :=
  { emptyDB with
    users := fun i =>
      if i = 30 then some ⟨0, 0⟩
      else if 11 ≤ i ∧ i ≤ 15 then some ⟨3, 1⟩ else none
    channels := fun c =>
      if c = "promo" then some ⟨"normal", 5, 0, 0, 0, true, some 4⟩ else none
    orders := fun i =>
      if i = 4 then some ⟨30, "promo", 5, 10, "active", none⟩ else none
    user_channel_subscriptions :=
      [(11, "promo"), (12, "promo"), (13, "promo"), (14, "promo"),
       (15, "promo"), (30, "promo")] }

/-- C2: the gained count written by `update_channel_members` is the number
of subscription rows for the channel excluding the self-crediting party —
the backing order's owner when the channel is backed by an (existing)
order, and the default admin when it has no order reference — assuming
every subscriber of the channel is present in the users table. -/
theorem update_channel_members_excludes_owner (s : Database)
    (username : String) (now : Nat) (ch : ChannelRow)
    (hch : s.channels (normUser username) = some ch) (hact : ch.active = true)
    (husers : ∀ p ∈ s.user_channel_subscriptions, p.2 = normUser username →
        (s.users p.1).isSome = true) :
    (∀ oid o, ch.order_id = some oid → s.orders oid = some o →
       ∃ ch', (s.update_channel_members username now).1.channels (normUser username)
           = some ch' ∧
         ch'.gained = ((s.user_channel_subscriptions.filter
             (fun p => p.2 = normUser username ∧ p.1 ≠ o.user_id)).length : Int) ∧
         ch'.current_count = ch'.gained) ∧
    (ch.order_id = none →
       ∃ ch', (s.update_channel_members username now).1.channels (normUser username)
           = some ch' ∧
         ch'.gained = ((s.user_channel_subscriptions.filter
             (fun p => p.2 = normUser username ∧ p.1 ≠ defaultAdminOwnerId)).length : Int) ∧
         ch'.current_count = ch'.gained) := by
  constructor
  · intro oid o hoid ho
    have howner : s.orderOwnerId ch = o.user_id := by
      simp [Database.orderOwnerId, hoid, ho]
    have h := update_channel_members_writes_gained s username now ch hch hact
    rw [howner, gainedCount_eq_of_users_present s _ _ husers] at h
    exact h
  · intro hoid
    have howner : s.orderOwnerId ch = defaultAdminOwnerId := by
      simp [Database.orderOwnerId, hoid]
    have h := update_channel_members_writes_gained s username now ch hch hact
    rw [howner, gainedCount_eq_of_users_present s _ _ husers] at h
    exact h

/-- Witness for C2 : in `wExclDB` (target 5, five non-owner subscriptions
plus the owner's own subscription) the count written excludes owner 30. -/
theorem update_channel_members_excludes_owner_witness :
    (wExclDB.channels (normUser "promo")
      = some ⟨"normal", 5, 0, 0, 0, true, some 4⟩) ∧
    ((⟨"normal", 5, 0, 0, 0, true, some 4⟩ : ChannelRow).active = true) ∧
    (∀ p ∈ wExclDB.user_channel_subscriptions, p.2 = normUser "promo" →
        (wExclDB.users p.1).isSome = true) ∧
    ((∀ oid o, (⟨"normal", 5, 0, 0, 0, true, some 4⟩ : ChannelRow).order_id = some oid →
        wExclDB.orders oid = some o →
       ∃ ch', (wExclDB.update_channel_members "promo" 7).1.channels (normUser "promo")
           = some ch' ∧
         ch'.gained = ((wExclDB.user_channel_subscriptions.filter
             (fun p => p.2 = normUser "promo" ∧ p.1 ≠ o.user_id)).length : Int) ∧
         ch'.current_count = ch'.gained) ∧
     ((⟨"normal", 5, 0, 0, 0, true, some 4⟩ : ChannelRow).order_id = none →
       ∃ ch', (wExclDB.update_channel_members "promo" 7).1.channels (normUser "promo")
           = some ch' ∧
         ch'.gained = ((wExclDB.user_channel_subscriptions.filter
             (fun p => p.2 = normUser "promo" ∧ p.1 ≠ defaultAdminOwnerId)).length : Int) ∧
         ch'.current_count = ch'.gained)) :=
  ⟨by decide, by decide, by decide,
    update_channel_members_excludes_owner wExclDB "promo" 7
      ⟨"normal", 5, 0, 0, 0, true, some 4⟩ (by decide) (by decide) (by decide)⟩

/-- C3: when `update_channel_members` runs on an active order-backed
channel, reaching the target deactivates the channel, marks the backing
order completed with the completion timestamp and returns the order's
owner id; below the target the channel row keeps its active flag (only
gained/current_count are rewritten) and the orders table is untouched. -/
theorem update_channel_members_completion (s : Database) (username : String)
    (now : Nat) (ch : ChannelRow) (oid : Nat) (o : OrderRow)
    (hch : s.channels (normUser username) = some ch) (hact : ch.active = true)
    (hoid : ch.order_id = some oid) (ho : s.orders oid = some o) :
    ((s.gainedCount (normUser username) o.user_id : Int) ≥ ch.target →
       (s.update_channel_members username now).2 = (true, some o.user_id) ∧
       (s.update_channel_members username now).1.channels (normUser username)
         = some { ch with
             gained := (s.gainedCount (normUser username) o.user_id : Int),
             current_count := (s.gainedCount (normUser username) o.user_id : Int),
             active := false } ∧
       (s.update_channel_members username now).1.orders oid
         = some { o with status := "completed", completed_at := some now }) ∧
    ((s.gainedCount (normUser username) o.user_id : Int) < ch.target →
       (s.update_channel_members username now).2 = (false, none) ∧
       (s.update_channel_members username now).1.channels (normUser username)
         = some { ch with
             gained := (s.gainedCount (normUser username) o.user_id : Int),
             current_count := (s.gainedCount (normUser username) o.user_id : Int) } ∧
       (s.update_channel_members username now).1.orders = s.orders) := by
  have howner : s.orderOwnerId ch = o.user_id := by
    simp [Database.orderOwnerId, hoid, ho]
  constructor
  · intro hg
    simp only [Database.update_channel_members, hch, hact, if_true, howner,
      hoid, if_pos hg]
    refine ⟨?_, ?_, ?_⟩
    · simp [ho]
    · simp [Database.updateOrder, Database.setChannel]
    · simp [Database.updateOrder, Database.setChannel, ho]
  · intro hg
    have hng : ¬((s.gainedCount (normUser username) o.user_id : Int) ≥ ch.target) :=
      not_le.mpr hg
    simp only [Database.update_channel_members, hch, hact, if_true, howner,
      hoid, if_neg hng]
    refine ⟨?_, ?_, ?_⟩
    · trivial
    · simp [Database.setChannel]
    · rfl

/-- Witness for C3 : in `wExclDB` the recount reaches the target of 5, so
the channel is deactivated, order 4 is completed at the given timestamp and
owner 30 is returned for notification. -/
theorem update_channel_members_completion_witness :
    (wExclDB.channels (normUser "promo")
      = some ⟨"normal", 5, 0, 0, 0, true, some 4⟩) ∧
    (wExclDB.orders 4 = some ⟨30, "promo", 5, 10, "active", none⟩) ∧
    (((wExclDB.gainedCount (normUser "promo")
          (⟨30, "promo", 5, 10, "active", none⟩ : OrderRow).user_id : Int)
        ≥ (⟨"normal", 5, 0, 0, 0, true, some 4⟩ : ChannelRow).target →
       (wExclDB.update_channel_members "promo" 99).2 = (true, some 30) ∧
       (wExclDB.update_channel_members "promo" 99).1.channels (normUser "promo")
         = some { (⟨"normal", 5, 0, 0, 0, true, some 4⟩ : ChannelRow) with
             gained := (wExclDB.gainedCount (normUser "promo") 30 : Int),
             current_count := (wExclDB.gainedCount (normUser "promo") 30 : Int),
             active := false } ∧
       (wExclDB.update_channel_members "promo" 99).1.orders 4
         = some { (⟨30, "promo", 5, 10, "active", none⟩ : OrderRow) with
             status := "completed", completed_at := some 99 }) ∧
     ((wExclDB.gainedCount (normUser "promo")
          (⟨30, "promo", 5, 10, "active", none⟩ : OrderRow).user_id : Int)
        < (⟨"normal", 5, 0, 0, 0, true, some 4⟩ : ChannelRow).target →
       (wExclDB.update_channel_members "promo" 99).2 = (false, none) ∧
       (wExclDB.update_channel_members "promo" 99).1.channels (normUser "promo")
         = some { (⟨"normal", 5, 0, 0, 0, true, some 4⟩ : ChannelRow) with
             gained := (wExclDB.gainedCount (normUser "promo") 30 : Int),
             current_count := (wExclDB.gainedCount (normUser "promo") 30 : Int) } ∧
       (wExclDB.update_channel_members "promo" 99).1.orders = wExclDB.orders)) :=
  ⟨by decide, by decide,
    update_channel_members_completion wExclDB "promo" 99
      ⟨"normal", 5, 0, 0, 0, true, some 4⟩ 4 ⟨30, "promo", 5, 10, "active", none⟩
      (by decide) (by decide) (by decide) (by decide)⟩

attribute [ext] Database

theorem gainedCount_setChannel (s : Database) (m : String)
    (row : Option ChannelRow) (n : String) (owner : Nat) :
    (s.setChannel m row).gainedCount n owner = s.gainedCount n owner := rfl

theorem orderOwnerId_setChannel (s : Database) (m : String)
    (row : Option ChannelRow) (ch : ChannelRow) :
    (s.setChannel m row).orderOwnerId ch = s.orderOwnerId ch := rfl

theorem orderOwnerId_row (s : Database) (ty : String) (tg g ic cc : Int)
    (ac : Bool) (ch : ChannelRow) :
    s.orderOwnerId ⟨ty, tg, g, ic, cc, ac, ch.order_id⟩ = s.orderOwnerId ch := rfl

theorem setChannel_setChannel_same (s : Database) (n : String)
    (row : Option ChannelRow) :
    (s.setChannel n row).setChannel n row = s.setChannel n row := by
  unfold Database.setChannel
  ext1 <;> try rfl
  funext c
  by_cases h : c = n <;> simp [h]

/-- C4: running `update_channel_members` twice in a row with no intervening
change to the subscription ledger leaves exactly the state produced by the
first run: gained/active on the channel row and the completion status of
the backing order are identical after both runs, and an already-completed
order is never re-completed (the second run does not touch it). -/
theorem update_channel_members_idempotent (s : Database) (username : String)
    (t1 t2 : Nat) :
    ((s.update_channel_members username t1).1.update_channel_members username t2).1
      = (s.update_channel_members username t1).1 := by
  rcases hch : s.channels (normUser username) with _ | ch
  · have h1 : (s.update_channel_members username t1).1 = s := by
      simp [Database.update_channel_members, hch]
    rw [h1]
    simp [Database.update_channel_members, hch]
  · by_cases hact : ch.active = true
    · by_cases htar : ((s.gainedCount (normUser username) (s.orderOwnerId ch) : Int)
        ≥ ch.target)
      · -- target reached on the first run: the channel is left inactive, so
        -- the second run is a no-op
        have hch2 : (s.update_channel_members username t1).1.channels (normUser username)
            = some { ch with
                gained := (s.gainedCount (normUser username) (s.orderOwnerId ch) : Int),
                current_count := (s.gainedCount (normUser username) (s.orderOwnerId ch) : Int),
                active := false } := by
          rcases hoid : ch.order_id with _ | oid <;>
            simp [Database.update_channel_members, hch, hact, htar, hoid,
              Database.setChannel, Database.updateOrder]
        set S := (s.update_channel_members username t1).1 with hS
        simp [Database.update_channel_members, hch2]
      · -- below target: the first run only rewrites gained/current_count,
        -- and the second run rewrites them to the same values
        have h1 : (s.update_channel_members username t1).1
            = s.setChannel (normUser username)
                (some ⟨ch.type, ch.target,
                   (s.gainedCount (normUser username) (s.orderOwnerId ch) : Int),
                   ch.initial_count,
                   (s.gainedCount (normUser username) (s.orderOwnerId ch) : Int),
                   true, ch.order_id⟩) := by
          simp [Database.update_channel_members, hch, hact, htar]
        rw [h1]
        have hch2 : (s.setChannel (normUser username)
              (some (⟨ch.type, ch.target,
                 (s.gainedCount (normUser username) (s.orderOwnerId ch) : Int),
                 ch.initial_count,
                 (s.gainedCount (normUser username) (s.orderOwnerId ch) : Int),
                 true, ch.order_id⟩ : ChannelRow))).channels (normUser username)
            = some ⟨ch.type, ch.target,
                (s.gainedCount (normUser username) (s.orderOwnerId ch) : Int),
                ch.initial_count,
                (s.gainedCount (normUser username) (s.orderOwnerId ch) : Int),
                true, ch.order_id⟩ := by
          simp [Database.setChannel]
        simp only [Database.update_channel_members, hch2, gainedCount_setChannel,
          orderOwnerId_setChannel, orderOwnerId_row]
        rw [if_neg htar]
        exact setChannel_setChannel_same s (normUser username) _
    · have hactf : ch.active = false := by
        cases h : ch.active
        · rfl
        · exact absurd h hact
      have h1 : (s.update_channel_members username t1).1 = s := by
        simp [Database.update_channel_members, hch, hactf]
      rw [h1]
      simp [Database.update_channel_members, hch, hactf]

/-! ### Code redemption -/

/-- State with a single-use code "c1" worth 10 points. -/
def wCode1DB : Database :=
  { emptyDB with
    users := fun i => if i = 1 then some ⟨0, 0⟩ else none
    codes := fun cd => if cd = "c1" then some ⟨10, 1, 0, true⟩ else none }

/-- State with a three-use code "c3" worth 10 points. -/
def wCode3DB : Database :=
  { emptyDB with
    users := fun i => if i = 1 then some ⟨5, 0⟩ else none
    codes := fun cd => if cd = "c3" then some ⟨10, 3, 0, true⟩ else none }

/-- Counterexample to C9 as stated: with usage_limit 1, user 1 redeems
"c1" successfully, but the second attempt by the same user returns `none`
(the invalid/expired outcome) rather than `some (-1)` (the already-used
outcome), because the exhaustion check precedes the per-user check. -/
theorem redeem_code_second_attempt_counterexample :
    (wCode1DB.redeem_code 1 "c1").1 = some 10 ∧
    ((wCode1DB.redeem_code 1 "c1").2.redeem_code 1 "c1").1 = none ∧
    ((wCode1DB.redeem_code 1 "c1").2.redeem_code 1 "c1").1 ≠ some (-1) := by
  refine ⟨by decide, by decide, by decide⟩

/-- C9 (amended): redeeming an active code with used_count below its
usage_limit by a user who has not used it credits the code's point value
exactly once and increments used_count by one; a second attempt by the
same user returns the already-used outcome (with no state change) provided
used_count is still below usage_limit, while once used_count has reached
usage_limit any attempt by any user returns the invalid/expired outcome
(with no state change) — exhaustion takes precedence over already-used. -/
theorem redeem_code_spec_amended (s : Database) (user_id : Nat) (code : String)
    (c : CodeRow) (u : UserRow)
    (hc : s.codes code = some c) (hca : c.active = true)
    (hlim : c.used_count < c.usage_limit)
    (hfresh : s.code_usage user_id code = false)
    (hu : s.users user_id = some u) :
    (s.redeem_code user_id code).1 = some c.points ∧
    (s.redeem_code user_id code).2.codes code
      = some { c with used_count := c.used_count + 1 } ∧
    (s.redeem_code user_id code).2.users user_id
      = some ⟨u.points + c.points, u.channels_joined⟩ ∧
    (s.redeem_code user_id code).2.code_usage user_id code = true ∧
    (c.used_count + 1 < c.usage_limit →
      (s.redeem_code user_id code).2.redeem_code user_id code
        = (some (-1), (s.redeem_code user_id code).2)) ∧
    (c.usage_limit ≤ c.used_count + 1 →
      ∀ uid2, (s.redeem_code user_id code).2.redeem_code uid2 code
        = (none, (s.redeem_code user_id code).2)) := by
  have hnl : ¬(c.used_count ≥ c.usage_limit) := not_le.mpr hlim
  have h1 : (s.redeem_code user_id code).1 = some c.points := by
    simp [Database.redeem_code, hc, hca, hnl, hfresh]
  have hcodes : (s.redeem_code user_id code).2.codes code
      = some { c with used_count := c.used_count + 1 } := by
    simp [Database.redeem_code, hc, hca, hnl, hfresh, Database.setCode,
      Database.insertUsage, Database.updateUser]
  have husers : (s.redeem_code user_id code).2.users user_id
      = some ⟨u.points + c.points, u.channels_joined⟩ := by
    simp [Database.redeem_code, hc, hca, hnl, hfresh, Database.setCode,
      Database.insertUsage, Database.updateUser, hu]
  have husage : (s.redeem_code user_id code).2.code_usage user_id code = true := by
    simp [Database.redeem_code, hc, hca, hnl, hfresh, Database.setCode,
      Database.insertUsage, Database.updateUser]
  refine ⟨h1, hcodes, husers, husage, ?_, ?_⟩
  · intro hlt
    set S := (s.redeem_code user_id code).2 with hS
    have hnl2 : ¬(c.used_count + 1 ≥ c.usage_limit) := not_le.mpr hlt
    simp [Database.redeem_code, hcodes, hca, hnl2, husage]
  · intro hge uid2
    set S := (s.redeem_code user_id code).2 with hS
    have hge2 : ({ c with used_count := c.used_count + 1 } : CodeRow).used_count
        ≥ ({ c with used_count := c.used_count + 1 } : CodeRow).usage_limit := by
      simpa using hge
    simp [Database.redeem_code, hcodes, hca, hge2]

/-- Witness for C9 (amended): user 1 redeems the three-use code "c3",
earning its 10 points; the immediate second attempt returns the
already-used outcome because one use is still below the limit of 3. -/
theorem redeem_code_spec_amended_witness :
    (wCode3DB.codes "c3" = some ⟨10, 3, 0, true⟩) ∧
    ((⟨10, 3, 0, true⟩ : CodeRow).active = true) ∧
    ((⟨10, 3, 0, true⟩ : CodeRow).used_count < (⟨10, 3, 0, true⟩ : CodeRow).usage_limit) ∧
    (wCode3DB.code_usage 1 "c3" = false) ∧
    (wCode3DB.users 1 = some ⟨5, 0⟩) ∧
    ((wCode3DB.redeem_code 1 "c3").1 = some (⟨10, 3, 0, true⟩ : CodeRow).points ∧
     (wCode3DB.redeem_code 1 "c3").2.codes "c3"
       = some { (⟨10, 3, 0, true⟩ : CodeRow) with used_count := 0 + 1 } ∧
     (wCode3DB.redeem_code 1 "c3").2.users 1 = some ⟨5 + 10, 0⟩ ∧
     (wCode3DB.redeem_code 1 "c3").2.code_usage 1 "c3" = true ∧
     ((0 : Int) + 1 < 3 →
       (wCode3DB.redeem_code 1 "c3").2.redeem_code 1 "c3"
         = (some (-1), (wCode3DB.redeem_code 1 "c3").2)) ∧
     ((3 : Int) ≤ 0 + 1 →
       ∀ uid2, (wCode3DB.redeem_code 1 "c3").2.redeem_code uid2 "c3"
         = (none, (wCode3DB.redeem_code 1 "c3").2))) :=
  ⟨by decide, by decide, by decide, by decide, by decide,
    redeem_code_spec_amended wCode3DB 1 "c3" ⟨10, 3, 0, true⟩ ⟨5, 0⟩
      (by decide) (by decide) (by decide) (by decide) (by decide)⟩

/-! ### Join-verification membership check -/

/-- Counterexample to C8 as stated: a bot account whose platform-reported
status is "member" is rejected by `check_user_membership` (the `is_bot`
check fires before the advisory heuristics), so the check does not report
success for every member. -/
theorem check_user_membership_bot_counterexample :
    ("member" ∈ memberStatuses) ∧
    check_user_membership "member" ⟨424242, true, some "realhandle", some "Real Name"⟩
      = false := by
  refine ⟨by decide, by decide⟩

/-- C8 (amended): for every non-bot user whose platform-reported status is
member, administrator or creator, `check_user_membership` reports success
regardless of any legitimacy warnings (short or numeric-only handle,
missing handle, missing or short first name, high account id): the
suspicion heuristics are advisory only; bot accounts, however, are
rejected even when they are members. -/
theorem check_user_membership_advisory (status : String) (user : TgUser)
    (hst : status ∈ memberStatuses) (hbot : user.is_bot = false) :
    check_user_membership status user = true := by
  simp [check_user_membership, hst, hbot]

/-- Witness for C8 (amended): a maximally suspicious non-bot member — a
numeric-only handle, no first name and a very high account id — is still
reported as a member. -/
theorem check_user_membership_advisory_witness :
    ("member" ∈ memberStatuses) ∧
    ((⟨7000000001, false, some "123", none⟩ : TgUser).is_bot = false) ∧
    (isSuspicious ⟨7000000001, false, some "123", none⟩ = true) ∧
    check_user_membership "member" ⟨7000000001, false, some "123", none⟩ = true :=
  ⟨by decide, by decide, by decide,
    check_user_membership_advisory "member" ⟨7000000001, false, some "123", none⟩
      (by decide) (by decide)⟩
